import Mathlib

/-!
Verification of the talen-radar resilient fetch orchestration core.

This file shallowly embeds the scraping orchestration core of the repository:
the credit ledger (CreditTrackerService), the block detector
(AntiBypassService.isContentBlocked), the session pool (BrowserEngineService)
and the fetch orchestrator (ScrapingOrchestratorService.executeWithFallback /
executeWithPaidService).  Pure computations are translated directly; external
effects (the free scraping strategy, the paid HTTP provider, Math.random, the
wall clock, and the MD5 digest from node crypto) are passed in as explicit
parameters.  JavaScript-specific semantics (falsy defaults with the or
operator, string interpolation of null, Map get-or-zero) are modelled by
small helper functions.
-/

/-- JavaScript truthy fallback `v || d` for an optional numeric configuration
value: missing and `0` both fall back to the default. -/
def jsOrNat : Option Nat → Nat → Nat
  | none, d => d
  | some v, d => if v = 0 then d else v

/-- JavaScript truthy fallback `v || d` for an optional string: missing and
the empty string both fall back to the default. -/
def jsOrStr : Option String → String → String
  | none, d => d
  | some v, d => if v = "" then d else v

/-- JavaScript template interpolation of a nullable string: `null` prints as
the literal text "null". -/
def jsNullableToString : Option String → String
  | none => "null"
  | some s => s

/-- Check whether the second list occurs at the head of the first list. -/
def listStartsWith : List Char → List Char → Bool
  | [], _ => true
  | _ :: _, [] => false
  | p :: ps, c :: cs => p = c && listStartsWith ps cs

/-- Check whether `pat` occurs as a contiguous sublist of the second list. -/
def listIncludes (pat : List Char) : List Char → Bool
  | [] => listStartsWith pat []
  | c :: rest => listStartsWith pat (c :: rest) || listIncludes pat rest

/-- JavaScript `s.includes(pat)` on strings. -/
def strIncludes (s pat : String) : Bool :=
  listIncludes pat.toList s.toList

/-- JavaScript `s.toLowerCase()`, modelled characterwise (the markers and
documents involved are ASCII). -/
def jsToLower (s : String) : String :=
  String.mk (s.data.map Char.toLower)

/-- A wall-clock date as observed through `new Date()`: the fields read by
the code are getFullYear, getMonth and getDate. -/
structure JSDate where
  year : Nat
  month : Nat
  date : Nat
deriving DecidableEq

/-- The `paidServices` configuration namespace
(apps/api/src/config/paid-services.config.ts), restricted to the fields the
credit tracker reads: the scraperapi free monthly limit, the per-site credit
cost map (the key "default" holds the default cost), and the scrapingdog
free trial limit. -/
structure PaidServicesConfig where
  scraperapiFreeMonthlyLimit : Option Nat
  scraperapiCreditsPerRequest : List (String × Nat)
  scrapingdogFreeTrialLimit : Option Nat
deriving DecidableEq

/-- The concrete values of paid-services.config.ts in the repository. -/
def repoPaidServicesConfig : PaidServicesConfig :=
  { scraperapiFreeMonthlyLimit := some 1000
    scraperapiCreditsPerRequest := [("jobs.bg", 10), ("default", 1)]
    scrapingdogFreeTrialLimit := some 1000 }

/-- Key of the in-memory usage map: `service_year_month`
(CreditTrackerService.trackUsage and getServiceLimits). -/
def usageKey (service : String) (year month : Nat) : String :=
  service ++ "_" ++ toString year ++ "_" ++ toString month

/-- A credit usage record as passed to CreditTrackerService.trackUsage. -/
structure CreditUsage where
  service : String
  site : String
  credits : Nat
  url : String
  timestamp : JSDate
  successful : Bool
deriving DecidableEq

/-- Mutable state of CreditTrackerService: the in-memory monthly usage map
(`get(key) || 0` makes it a total function defaulting to 0) and the
last-reset date. -/
structure CreditTrackerState where
  monthlyUsage : String → Nat
  lastReset : JSDate

/-- CreditTrackerService.trackUsage: add `usage.credits` to the
service-year-month counter.  Persistence and threshold alerts are logging
side effects with no ledger state change. -/
def trackUsage (now : JSDate) (st : CreditTrackerState) (usage : CreditUsage) :
    CreditTrackerState :=
  let key := usageKey usage.service now.year now.month
  { st with
    monthlyUsage := fun k =>
      if k = key then st.monthlyUsage key + usage.credits else st.monthlyUsage k }

/-- Scraperapi part of the ServiceLimits value. -/
structure ScraperapiLimits where
  monthly : Nat
  daily : Nat
  remaining : Int
deriving DecidableEq

/-- Scrapingdog part of the ServiceLimits value. -/
structure ScrapingdogLimits where
  trial : Nat
  used : Nat
  remaining : Int
deriving DecidableEq

/-- Return value of CreditTrackerService.getServiceLimits. -/
structure ServiceLimits where
  scraperapi : ScraperapiLimits
  scrapingdog : ScrapingdogLimits
deriving DecidableEq

/-- CreditTrackerService.getServiceLimits: remaining credits are clamped at
zero with `Math.max(0, limit - usage)`. -/
def getServiceLimits (cfg : PaidServicesConfig) (now : JSDate)
    (st : CreditTrackerState) : ServiceLimits :=
  let currentKey := usageKey "scraperapi" now.year now.month
  let scrapingdogKey := usageKey "scrapingdog" now.year now.month
  let scraperAPIUsage := st.monthlyUsage currentKey
  let scrapingDogUsage := st.monthlyUsage scrapingdogKey
  let monthly := jsOrNat cfg.scraperapiFreeMonthlyLimit 1000
  let trial := jsOrNat cfg.scrapingdogFreeTrialLimit 1000
  { scraperapi :=
      { monthly := monthly
        daily := monthly / 30
        remaining := max 0 ((monthly : Int) - (scraperAPIUsage : Int)) }
    scrapingdog :=
      { trial := trial
        used := scrapingDogUsage
        remaining := max 0 ((trial : Int) - (scrapingDogUsage : Int)) } }

/-- CreditTrackerService.hasAvailableCredits. -/
def hasAvailableCredits (cfg : PaidServicesConfig) (now : JSDate)
    (st : CreditTrackerState) (service : String) (requiredCredits : Nat) : Bool :=
  let limits := getServiceLimits cfg now st
  if service = "scraperapi" then
    decide ((requiredCredits : Int) ≤ limits.scraperapi.remaining)
  else if service = "scrapingdog" then
    decide ((requiredCredits : Int) ≤ limits.scrapingdog.remaining)
  else
    false

/-- CreditTrackerService.getUsagePercentage, as an exact rational. -/
def getUsagePercentage (cfg : PaidServicesConfig) (now : JSDate)
    (st : CreditTrackerState) (service : String) : ℚ :=
  let limits := getServiceLimits cfg now st
  if service = "scraperapi" then
    let used : Int := (limits.scraperapi.monthly : Int) - limits.scraperapi.remaining
    ((used : ℚ) / (limits.scraperapi.monthly : ℚ)) * 100
  else if service = "scrapingdog" then
    ((limits.scrapingdog.used : ℚ) / (limits.scrapingdog.trial : ℚ)) * 100
  else
    0

/-- CreditTrackerService.resetMonthlyUsage: clears the counters only when
invoked on the first day of the month and the month number differs from the
month of the last reset. -/
def resetMonthlyUsage (now : JSDate) (st : CreditTrackerState) :
    CreditTrackerState :=
  if now.date = 1 ∧ now.month ≠ st.lastReset.month then
    { monthlyUsage := fun _ => 0, lastReset := now }
  else
    st

/-- CreditTrackerService.getCreditCost:
`creditsPerRequest[siteName] || creditsPerRequest.default || 1` for
scraperapi, 1 for every other service. -/
def getCreditCost (cfg : PaidServicesConfig) (siteName : String)
    (service : String) : Nat :=
  if service = "scraperapi" then
    jsOrNat (cfg.scraperapiCreditsPerRequest.lookup siteName)
      (jsOrNat (cfg.scraperapiCreditsPerRequest.lookup "default") 1)
  else
    1

/-- The curated blocking-indicator list of AntiBypassService.isContentBlocked,
verbatim from the source.  Note that the lookup lowercases the document
first, so the indicators containing capital letters can never match. -/
def blockingIndicators : List String :=
  [ "datadome.co/captcha",
    "dd.captcha-delivery.com/captcha",
    "geo.captcha-delivery.com/captcha",
    "ct.captcha-delivery.com",
    "captcha-delivery.com/interstitial",
    "captcha-delivery.com/captcha",
    "DataDome Captcha",
    "DataDome CAPTCHA",
    "DataDome Device Check",
    "Just a moment",
    "Verifying your browser",
    "Challenge solved",
    "DataDome protection",
    "Please complete the security check",
    "Access Denied",
    "Please verify you are a human",
    "Security Check",
    "Bot Protection",
    "Please wait while we check your browser",
    "forbidden",
    "rate limit exceeded" ]

/-- The hasJobContent test of AntiBypassService.isContentBlocked: the
lowercased document mentions mdc-card together with job, position or
vacancy. -/
def hasJobContentMarkers (html : String) : Bool :=
  let htmlLower := jsToLower html
  strIncludes htmlLower "mdc-card" &&
    (strIncludes htmlLower "job" || strIncludes htmlLower "position" ||
      strIncludes htmlLower "vacancy")

/-- The hasBlockingIndicator test of AntiBypassService.isContentBlocked. -/
def hasBlockingIndicator (html : String) : Bool :=
  let htmlLower := jsToLower html
  blockingIndicators.any (fun indicator => strIncludes htmlLower indicator)

/-- AntiBypassService.isContentBlocked: a document with job-content markers
longer than 50000 characters is never blocked; otherwise it is blocked when
a blocking indicator occurs or the document is shorter than 500
characters. -/
def isContentBlocked (html : String) : Bool :=
  if hasJobContentMarkers html && decide (50000 < html.length) then
    false
  else
    hasBlockingIndicator html || decide (html.length < 500)

/-- Modelled from the spec (claim C6 wording): blocked iff a curated marker
occurs, or the document is implausibly small AND lacks the positive content
markers.  This is the comparison definition for the refinement claim; the
authoritative code definition is isContentBlocked above. -/
def isContentBlockedClaimed (html : String) : Bool :=
  hasBlockingIndicator html ||
    (decide (html.length < 500) && !hasJobContentMarkers html)

/-- Metadata attached to the browser response converted from a paid
response (ScrapingOrchestratorService.executeWithPaidService). -/
structure ResponseMetadata where
  service : String
  creditsUsed : Nat
  fallbackReason : Option String
deriving DecidableEq

/-- BrowserScrapingResponse, the result value of the free strategy and of
executeWithFallback. -/
structure BrowserScrapingResponse where
  html : String
  finalUrl : String
  status : Int
  headers : List (String × String)
  success : Bool
  error : Option String
  loadTime : Nat
  cookies : List String
  metadata : Option ResponseMetadata
deriving DecidableEq

/-- Metadata of a PaidScrapingResponse that executeWithPaidService reads. -/
structure PaidResponseMetadata where
  finalUrl : Option String
  statusCode : Option Int
  responseHeaders : Option (List (String × String))
deriving DecidableEq

/-- PaidScrapingResponse, the value returned by
PaidScraperService.scrapeWithScraperAPI. -/
structure PaidScrapingResponse where
  success : Bool
  html : String
  error : Option String
  credits : Nat
  processingTime : Option Nat
  metadata : Option PaidResponseMetadata
deriving DecidableEq

/-- ScrapingContext as consumed by the orchestrator (the fields it reads). -/
structure ScrapingContext where
  url : String
  siteName : String
  page : Nat
  startTime : Nat
  totalRequestCount : Nat
  lastError : Option String
deriving DecidableEq

/-- Retry configuration (ScrapingOrchestratorService.getDefaultRetryConfig;
the `paidServices.retry` block of the configuration file has the same
values). -/
structure RetryConfig where
  maxAttempts : Nat
  baseDelayMs : ℚ
  exponentialBase : ℚ
  jitterMs : ℚ
deriving DecidableEq

/-- The default retry configuration (identical in
getDefaultRetryConfig and in paid-services.config.ts). -/
def defaultRetryConfig : RetryConfig :=
  { maxAttempts := 3, baseDelayMs := 10000, exponentialBase := 3, jitterMs := 2000 }

/-- External world of one executeWithFallback call: the outcome of the n-th
invocation of the free strategy (Except.error models a thrown exception),
the outcome of the single possible paid call, the Math.random draw used for
the jitter before retry n, and the wall clock. -/
structure OrchestratorEnv where
  freeAttempt : Nat → Except String BrowserScrapingResponse
  paidResult : Except String PaidScrapingResponse
  randJitter : Nat → ℚ
  now : JSDate

/-- Classification of one iteration of the free retry loop: the strategy
call threw or returned an unusable response (caught as a failure), returned
a document the checker flags (break to paid fallback), or succeeded. -/
inductive AttemptOutcome where
  | failed (msg : String)
  | blockedDoc
  | succeeded (r : BrowserScrapingResponse)
deriving DecidableEq

/-- One iteration body of the retry loop in executeWithFallback: a thrown
error or a response with success=false or empty html is a failure, with the
response error falling back to the no-content message; otherwise the
blocked checker runs; otherwise the response is returned. -/
def classifyAttempt (checker : Option (String → Bool)) :
    Except String BrowserScrapingResponse → AttemptOutcome
  | Except.error e => AttemptOutcome.failed e
  | Except.ok r =>
    if r.success = false ∨ r.html = "" then
      AttemptOutcome.failed (jsOrStr r.error "No content received")
    else
      match checker with
      | some isBlocked =>
        if isBlocked r.html then AttemptOutcome.blockedDoc
        else AttemptOutcome.succeeded r
      | none => AttemptOutcome.succeeded r

/-- The lastError message recorded when blocking is detected. -/
def blockedLastError : String := "Blocking detected - requires premium service"

/-- Backoff delay slept after failed attempt n (only when n < maxAttempts):
`baseDelayMs * exponentialBase^(n-1) + Math.random() * jitterMs`. -/
def retryDelay (rcfg : RetryConfig) (rand : ℚ) (attempt : Nat) : ℚ :=
  rcfg.baseDelayMs * rcfg.exponentialBase ^ (attempt - 1) + rand * rcfg.jitterMs

/-- Trace of the free retry loop: number of strategy invocations, the
delays slept between attempts in order, and the running lastError. -/
structure FreeLoopState where
  attemptsMade : Nat
  delays : List ℚ
  lastError : Option String
deriving DecidableEq

/-- Exit reason of the free retry loop. -/
inductive FreeExit where
  | success (r : BrowserScrapingResponse)
  | blocked
  | exhausted
deriving DecidableEq

/-- The free retry loop of executeWithFallback.  `attempt` is the 1-based
loop counter and `fuel` the number of remaining iterations; the loop is
entered with attempt = 1 and fuel = maxAttempts. -/
def runFree (env : OrchestratorEnv) (checker : Option (String → Bool))
    (rcfg : RetryConfig) : Nat → Nat → FreeLoopState → FreeLoopState × FreeExit
  | _, 0, s => (s, FreeExit.exhausted)
  | attempt, fuel + 1, s =>
    match classifyAttempt checker (env.freeAttempt attempt) with
    | AttemptOutcome.succeeded r =>
      ({ s with attemptsMade := s.attemptsMade + 1 }, FreeExit.success r)
    | AttemptOutcome.blockedDoc =>
      ({ s with
          attemptsMade := s.attemptsMade + 1
          lastError := some blockedLastError }, FreeExit.blocked)
    | AttemptOutcome.failed msg =>
      runFree env checker rcfg (attempt + 1) fuel
        { attemptsMade := s.attemptsMade + 1
          lastError := some msg
          delays :=
            (if attempt < rcfg.maxAttempts then
              s.delays ++ [retryDelay rcfg (env.randJitter attempt) attempt]
            else s.delays) }

/-- Outcome of executeWithPaidService: the returned or thrown value, the
ledger afterwards, whether scrapeWithScraperAPI was actually invoked, and
the trackUsage records issued. -/
structure PaidOutcome where
  result : Except String BrowserScrapingResponse
  ledger : CreditTrackerState
  paidInvoked : Bool
  trackCalls : List CreditUsage

/-- Browser response built from a successful paid response
(executeWithPaidService, success branch). -/
def convertPaidResponse (pr : PaidScrapingResponse) (url : String)
    (lastError : Option String) : BrowserScrapingResponse :=
  { html := pr.html
    finalUrl := jsOrStr (pr.metadata.bind (fun m => m.finalUrl)) url
    status :=
      match pr.metadata.bind (fun m => m.statusCode) with
      | none => 200
      | some c => if c = 0 then 200 else c
    headers := (pr.metadata.bind (fun m => m.responseHeaders)).getD []
    success := true
    error := none
    loadTime := pr.processingTime.getD 0
    cookies := []
    metadata := some
      { service := "scraperapi"
        creditsUsed := pr.credits
        fallbackReason := lastError } }

/-- ScrapingOrchestratorService.executeWithPaidService: check the credit
cost against the ledger (throwing without any paid call when insufficient),
invoke the paid provider, record the spend (zero credits on failure) and
return the converted response or rethrow. -/
def executeWithPaidService (env : OrchestratorEnv) (cfg : PaidServicesConfig)
    (st : CreditTrackerState) (siteName url : String)
    (lastError : Option String) : PaidOutcome :=
  let requiredCredits := getCreditCost cfg siteName "scraperapi"
  let hasCredits := hasAvailableCredits cfg env.now st "scraperapi" requiredCredits
  if hasCredits = false then
    let usagePercentage := getUsagePercentage cfg env.now st "scraperapi"
    { result := Except.error
        ("Insufficient ScraperAPI credits. Current usage: " ++
          toString usagePercentage ++ "%. Required: " ++
          toString requiredCredits ++ " credits.")
      ledger := st
      paidInvoked := false
      trackCalls := [] }
  else
    match env.paidResult with
    | Except.error e =>
      let usage : CreditUsage :=
        { service := "scraperapi", site := siteName, credits := 0, url := url
          timestamp := env.now, successful := false }
      { result := Except.error e
        ledger := trackUsage env.now st usage
        paidInvoked := true
        trackCalls := [usage] }
    | Except.ok pr =>
      if pr.success = false ∨ pr.html = "" then
        let usage : CreditUsage :=
          { service := "scraperapi", site := siteName, credits := 0, url := url
            timestamp := env.now, successful := false }
        { result := Except.error
            ("ScraperAPI failed: " ++ jsOrStr pr.error "No content received")
          ledger := trackUsage env.now st usage
          paidInvoked := true
          trackCalls := [usage] }
      else
        let usage : CreditUsage :=
          { service := "scraperapi", site := siteName, credits := pr.credits
            url := url, timestamp := env.now, successful := true }
        { result := Except.ok (convertPaidResponse pr url lastError)
          ledger := trackUsage env.now st usage
          paidInvoked := true
          trackCalls := [usage] }

/-- The failure response returned when every free attempt failed and paid
fallback is disabled. -/
def freeFailureResponse (url : String) (maxAttempts : Nat)
    (lastError : Option String) : BrowserScrapingResponse :=
  { html := ""
    finalUrl := url
    status := 0
    headers := []
    success := false
    error := some ("Free scraping failed after " ++ toString maxAttempts ++
      " attempts: " ++ jsNullableToString lastError)
    loadTime := 0
    cookies := []
    metadata := none }

/-- Outcome of executeWithFallback with its observable trace. -/
structure FallbackOutcome where
  result : Except String BrowserScrapingResponse
  attemptsMade : Nat
  delays : List ℚ
  ledger : CreditTrackerState
  paidFallbackEvaluated : Bool
  paidInvoked : Bool
  trackCalls : List CreditUsage

/-- ScrapingOrchestratorService.executeWithFallback: run the free strategy
with bounded retries and exponential backoff, break immediately to the paid
fallback when the block checker fires, fall back to the paid service (when
enabled) after the free path ends without success, and otherwise return a
failure response. -/
def executeWithFallback (env : OrchestratorEnv) (cfg : PaidServicesConfig)
    (rcfg : RetryConfig) (st : CreditTrackerState) (context : ScrapingContext)
    (enablePaidFallback : Bool) (checker : Option (String → Bool)) :
    FallbackOutcome :=
  let init : FreeLoopState := { attemptsMade := 0, delays := [], lastError := none }
  let run := runFree env checker rcfg 1 rcfg.maxAttempts init
  match run.2 with
  | FreeExit.success r =>
    { result := Except.ok r
      attemptsMade := run.1.attemptsMade
      delays := run.1.delays
      ledger := st
      paidFallbackEvaluated := false
      paidInvoked := false
      trackCalls := [] }
  | _ =>
    if enablePaidFallback then
      let p := executeWithPaidService env cfg st context.siteName context.url
        run.1.lastError
      { result := p.result
        attemptsMade := run.1.attemptsMade
        delays := run.1.delays
        ledger := p.ledger
        paidFallbackEvaluated := true
        paidInvoked := p.paidInvoked
        trackCalls := p.trackCalls }
    else
      { result := Except.ok
          (freeFailureResponse context.url rcfg.maxAttempts run.1.lastError)
        attemptsMade := run.1.attemptsMade
        delays := run.1.delays
        ledger := st
        paidFallbackEvaluated := false
        paidInvoked := false
        trackCalls := [] }

/-- BrowserSessionConfig: the configuration fields of a session request that
the engine reads (generateSessionId uses siteName, userAgent, headless and
stealth). -/
structure BrowserSessionConfig where
  siteName : String
  headless : Bool
  stealth : Option Bool
  userAgent : Option String
  loadImages : Option Bool
  timeout : Option Nat
deriving DecidableEq

/-- IBrowserSession as owned by the pool.  The Playwright browsing context
and page handles are external; contextId numbers the underlying browsing
context, so that a changed contextId witnesses that a new context was
created. -/
structure IBrowserSession where
  id : String
  config : BrowserSessionConfig
  createdAt : JSDate
  lastActivity : JSDate
  requestCount : Nat
  contextId : Nat
deriving DecidableEq

/-- Mutable state of BrowserEngineService: the session map and the counter
handing out fresh browsing-context identities. -/
structure BrowserEngineState where
  sessions : List (String × IBrowserSession)
  nextContextId : Nat
deriving DecidableEq

/-- The engine state at startup: no sessions. -/
def emptyEngineState : BrowserEngineState :=
  { sessions := [], nextContextId := 0 }

/-- Map.set on the session map. -/
def sessionsSet (k : String) (v : IBrowserSession)
    (m : List (String × IBrowserSession)) : List (String × IBrowserSession) :=
  (k, v) :: m.filter (fun p => p.1 != k)

/-- Map.delete on the session map. -/
def sessionsDelete (k : String) (m : List (String × IBrowserSession)) :
    List (String × IBrowserSession) :=
  m.filter (fun p => p.1 != k)

/-- BrowserEngineService.generateSessionId.  The composite
`md5(x).hex.substring(0, 8)` from node crypto is the external parameter
`md5hex8`; for forceNew the `${Date.now()}-${Math.random()}` disambiguator
is the external parameter `entropy`. -/
def generateSessionId (md5hex8 : String → String)
    (config : BrowserSessionConfig) (forceNew : Bool) (entropy : String) :
    String :=
  let baseStr := config.siteName ++ "-" ++ jsOrStr config.userAgent "default"
    ++ "-" ++ toString config.headless ++ "-"
    ++ toString (config.stealth.getD false)
  if forceNew then
    md5hex8 (baseStr ++ "-" ++ entropy)
  else
    md5hex8 baseStr

/-- BrowserEngineService.createNewSession: launch effects are external; the
session is registered under `sessionId || generateSessionId(config)` with a
fresh underlying browsing context. -/
def createNewSession (md5hex8 : String → String) (now : JSDate)
    (st : BrowserEngineState) (config : BrowserSessionConfig)
    (sessionId : Option String) : IBrowserSession × BrowserEngineState :=
  let id := jsOrStr sessionId (generateSessionId md5hex8 config false "")
  let session : IBrowserSession :=
    { id := id, config := config, createdAt := now, lastActivity := now
      requestCount := 0, contextId := st.nextContextId }
  (session,
    { sessions := sessionsSet id session st.sessions
      nextContextId := st.nextContextId + 1 })

/-- BrowserEngineService.getSession: reuse the session registered under the
deterministic fingerprint key, refreshing its last activity, and otherwise
create a new one. -/
def getSession (md5hex8 : String → String) (now : JSDate)
    (st : BrowserEngineState) (config : BrowserSessionConfig) :
    IBrowserSession × BrowserEngineState :=
  let sessionId := generateSessionId md5hex8 config false ""
  match st.sessions.lookup sessionId with
  | some session =>
    let refreshed := { session with lastActivity := now }
    (refreshed, { st with sessions := sessionsSet sessionId refreshed st.sessions })
  | none => createNewSession md5hex8 now st config (some sessionId)

/-- BrowserEngineService.closeSession: close the context (external) and
remove the map entry when present. -/
def closeSession (sessionId : String) (st : BrowserEngineState) :
    BrowserEngineState :=
  match st.sessions.lookup sessionId with
  | some _ => { st with sessions := sessionsDelete sessionId st.sessions }
  | none => st

/-- BrowserEngineService.rotateSession: close the current session and create
a replacement with the same config under a forceNew (randomized) id;
a missing session id is a thrown error. -/
def rotateSession (md5hex8 : String → String) (entropy : String)
    (now : JSDate) (st : BrowserEngineState) (sessionId : String) :
    Except String (IBrowserSession × BrowserEngineState) :=
  match st.sessions.lookup sessionId with
  | none => Except.error ("Session " ++ sessionId ++ " not found")
  | some currentSession =>
    let config := currentSession.config
    let st1 := closeSession sessionId st
    let newSessionId := generateSessionId md5hex8 config true entropy
    Except.ok (createNewSession md5hex8 now st1 config (some newSessionId))

/-- Whether the modelled call ended in a thrown exception rather than a
returned response. -/
def isThrown : Except String BrowserScrapingResponse → Bool
  | Except.error _ => true
  | Except.ok _ => false

/-- The backoff delays the loop sleeps when attempts a, a+1, ... all fail,
one delay per failing attempt strictly below maxAttempts. -/
def expectedDelays (env : OrchestratorEnv) (rcfg : RetryConfig) :
    Nat → Nat → List ℚ
  | _, 0 => []
  | a, n + 1 =>
    (if a < rcfg.maxAttempts then [retryDelay rcfg (env.randJitter a) a] else [])
      ++ expectedDelays env rcfg (a + 1) n

/-- Stand-in for the external MD5 hex digest in the concrete scenarios
below; the pool theorems hold for every digest function. -/
def hashId : String → String := fun s => s

/-- A concrete session configuration used in the concrete scenarios; its
deterministic fingerprint key under hashId is "jobs.bg-UA-false-true". -/
def demoSessionConfig : BrowserSessionConfig :=
  { siteName := "jobs.bg", headless := false, stealth := some true
    userAgent := some "UA", loadImages := none, timeout := none }

/-- A session registered long ago: last activity in the year 2020. -/
def staleSession : IBrowserSession :=
  { id := "jobs.bg-UA-false-true", config := demoSessionConfig
    createdAt := { year := 2020, month := 0, date := 1 }
    lastActivity := { year := 2020, month := 0, date := 1 }
    requestCount := 42, contextId := 5 }

/-- An engine state holding only the stale session. -/
def staleEngineState : BrowserEngineState :=
  { sessions := [("jobs.bg-UA-false-true", staleSession)], nextContextId := 6 }

/-- The wall-clock date of the concrete orchestrator scenarios. -/
def demoDate : JSDate := { year := 2025, month := 5, date := 15 }

/-- A successful paid response worth 10 credits. -/
def okPaidResponse : PaidScrapingResponse :=
  { success := true, html := "<html>content</html>", error := none
    credits := 10, processingTime := some 1000, metadata := none }

/-- A failed paid response (the provider reported an error, zero credits). -/
def failedPaidResponse : PaidScrapingResponse :=
  { success := false, html := "", error := some "ScraperAPI request failed"
    credits := 0, processingTime := none, metadata := none }

/-- Environment whose free strategy throws a transport error on every
invocation. -/
def envAllFail : OrchestratorEnv :=
  { freeAttempt := fun _ => Except.error "ECONNRESET"
    paidResult := Except.ok okPaidResponse
    randJitter := fun _ => 1 / 2
    now := demoDate }

/-- Environment whose free strategy throws and whose paid call fails. -/
def envPaidFails : OrchestratorEnv :=
  { freeAttempt := fun _ => Except.error "ECONNRESET"
    paidResult := Except.ok failedPaidResponse
    randJitter := fun _ => 0
    now := demoDate }

/-- A successful response whose document will be flagged by the checker. -/
def blockedResponse : BrowserScrapingResponse :=
  { html := "<html>Access denied</html>", finalUrl := "https://www.jobs.bg/"
    status := 403, headers := [], success := true, error := none
    loadTime := 100, cookies := [], metadata := none }

/-- Environment whose first free attempt returns the blocked document. -/
def envBlockedFirst : OrchestratorEnv :=
  { freeAttempt := fun n =>
      if n = 1 then Except.ok blockedResponse else Except.error "ECONNRESET"
    paidResult := Except.ok okPaidResponse
    randJitter := fun _ => 1 / 2
    now := demoDate }

/-- Ledger one credit short: 999 of 1000 scraperapi credits used in the
demo month. -/
def stPoor : CreditTrackerState :=
  { monthlyUsage := fun k => if k = "scraperapi_2025_5" then 999 else 0
    lastReset := { year := 2025, month := 5, date := 1 } }

/-- Ledger with no usage recorded. -/
def stRich : CreditTrackerState :=
  { monthlyUsage := fun _ => 0
    lastReset := { year := 2025, month := 5, date := 1 } }

/-- Ledger whose recorded usage far exceeds the monthly limit. -/
def stOver : CreditTrackerState :=
  { monthlyUsage := fun _ => 5000
    lastReset := { year := 2025, month := 5, date := 1 } }

/-- Ledger with usage 7 in month 4, last reset in month 3. -/
def stAprilUsage : CreditTrackerState :=
  { monthlyUsage := fun k => if k = "scraperapi_2025_4" then 7 else 0
    lastReset := { year := 2025, month := 3, date := 15 } }

/-- A scraping context for jobs.bg. -/
def demoContext : ScrapingContext :=
  { url := "https://www.jobs.bg/front_job_search.php", siteName := "jobs.bg"
    page := 1, startTime := 0, totalRequestCount := 0, lastError := none }

/-- A configuration where site-x costs 2 credits per request. -/
def cfgSiteX : PaidServicesConfig :=
  { scraperapiFreeMonthlyLimit := some 1000
    scraperapiCreditsPerRequest := [("site-x", 2), ("default", 1)]
    scrapingdogFreeTrialLimit := some 1000 }

/-- The retry loop with no fuel left exits exhausted. -/
theorem runFree_zero (env : OrchestratorEnv) (checker : Option (String → Bool))
    (rcfg : RetryConfig) (a : Nat) (s : FreeLoopState) :
    runFree env checker rcfg a 0 s = (s, FreeExit.exhausted) := rfl

/-- Step equation of the retry loop when the attempt is classified as a
failure: the loop records the error, sleeps the backoff delay unless this
was the last attempt, and continues. -/
theorem runFree_succ_failed (env : OrchestratorEnv)
    (checker : Option (String → Bool)) (rcfg : RetryConfig) (a n : Nat)
    (s : FreeLoopState) (e : String)
    (h : classifyAttempt checker (env.freeAttempt a) = AttemptOutcome.failed e) :
    runFree env checker rcfg a (n + 1) s =
      runFree env checker rcfg (a + 1) n
        { attemptsMade := s.attemptsMade + 1
          lastError := some e
          delays :=
            (if a < rcfg.maxAttempts then
              s.delays ++ [retryDelay rcfg (env.randJitter a) a]
            else s.delays) } := by
  conv_lhs => rw [runFree]
  rw [h]

/-- Step equation of the retry loop when the attempt returns a blocked
document: the loop breaks immediately. -/
theorem runFree_succ_blocked (env : OrchestratorEnv)
    (checker : Option (String → Bool)) (rcfg : RetryConfig) (a n : Nat)
    (s : FreeLoopState)
    (h : classifyAttempt checker (env.freeAttempt a) = AttemptOutcome.blockedDoc) :
    runFree env checker rcfg a (n + 1) s =
      ({ s with
          attemptsMade := s.attemptsMade + 1
          lastError := some blockedLastError }, FreeExit.blocked) := by
  conv_lhs => rw [runFree]
  rw [h]

/-- Step equation of the retry loop when the attempt succeeds with an
unblocked document: the loop returns the response. -/
theorem runFree_succ_success (env : OrchestratorEnv)
    (checker : Option (String → Bool)) (rcfg : RetryConfig) (a n : Nat)
    (s : FreeLoopState) (r : BrowserScrapingResponse)
    (h : classifyAttempt checker (env.freeAttempt a) = AttemptOutcome.succeeded r) :
    runFree env checker rcfg a (n + 1) s =
      ({ s with attemptsMade := s.attemptsMade + 1 }, FreeExit.success r) := by
  conv_lhs => rw [runFree]
  rw [h]

/-- When every strategy invocation throws, the retry loop invokes the
strategy once per fuel unit and exits exhausted. -/
theorem runFree_all_failed (env : OrchestratorEnv)
    (checker : Option (String → Bool)) (rcfg : RetryConfig)
    (hfail : ∀ i, ∃ e, env.freeAttempt i = Except.error e) :
    ∀ (fuel a : Nat) (s : FreeLoopState),
      (runFree env checker rcfg a fuel s).2 = FreeExit.exhausted ∧
      (runFree env checker rcfg a fuel s).1.attemptsMade = s.attemptsMade + fuel := by
  intro fuel
  induction fuel with
  | zero =>
    intro a s
    rw [runFree_zero]
    exact ⟨rfl, rfl⟩
  | succ n ih =>
    intro a s
    obtain ⟨e, he⟩ := hfail a
    have hc : classifyAttempt checker (env.freeAttempt a) = AttemptOutcome.failed e := by
      rw [he]
      rfl
    rw [runFree_succ_failed env checker rcfg a n s e hc]
    refine ⟨(ih (a + 1) _).1, ?_⟩
    rw [(ih (a + 1) _).2]
    show s.attemptsMade + 1 + n = s.attemptsMade + (n + 1)
    omega

/-- When every strategy invocation throws, the delays slept by the loop are
exactly the expected backoff schedule. -/
theorem runFree_all_failed_delays (env : OrchestratorEnv)
    (checker : Option (String → Bool)) (rcfg : RetryConfig)
    (hfail : ∀ i, ∃ e, env.freeAttempt i = Except.error e) :
    ∀ (fuel a : Nat) (s : FreeLoopState),
      (runFree env checker rcfg a fuel s).1.delays
        = s.delays ++ expectedDelays env rcfg a fuel := by
  intro fuel
  induction fuel with
  | zero =>
    intro a s
    rw [runFree_zero]
    simp [expectedDelays]
  | succ n ih =>
    intro a s
    obtain ⟨e, he⟩ := hfail a
    have hc : classifyAttempt checker (env.freeAttempt a) = AttemptOutcome.failed e := by
      rw [he]
      rfl
    rw [runFree_succ_failed env checker rcfg a n s e hc, ih]
    show (if a < rcfg.maxAttempts then
        s.delays ++ [retryDelay rcfg (env.randJitter a) a] else s.delays)
      ++ expectedDelays env rcfg (a + 1) n
      = s.delays ++ expectedDelays env rcfg a (n + 1)
    rw [expectedDelays]
    split <;> simp

/-- The attempts and delay trace of executeWithFallback comes straight from
the free retry loop, whatever the exit. -/
theorem executeWithFallback_trace (env : OrchestratorEnv)
    (cfg : PaidServicesConfig) (rcfg : RetryConfig) (st : CreditTrackerState)
    (context : ScrapingContext) (enable : Bool)
    (checker : Option (String → Bool)) :
    (executeWithFallback env cfg rcfg st context enable checker).attemptsMade
      = (runFree env checker rcfg 1 rcfg.maxAttempts
          { attemptsMade := 0, delays := [], lastError := none }).1.attemptsMade ∧
    (executeWithFallback env cfg rcfg st context enable checker).delays
      = (runFree env checker rcfg 1 rcfg.maxAttempts
          { attemptsMade := 0, delays := [], lastError := none }).1.delays := by
  refine ⟨?_, ?_⟩
  all_goals
    simp only [executeWithFallback]
    split
    · rfl
    · split <;> rfl

/-- A response classified as succeeded had success=true and nonempty html. -/
theorem classifyAttempt_succeeded (checker : Option (String → Bool))
    (o : Except String BrowserScrapingResponse) (r : BrowserScrapingResponse)
    (h : classifyAttempt checker o = AttemptOutcome.succeeded r) :
    r.success = true ∧ r.html ≠ "" := by
  cases o with
  | error e => simp [classifyAttempt] at h
  | ok r0 =>
    simp only [classifyAttempt] at h
    split at h
    · cases h
    · rename_i hcond
      push_neg at hcond
      have hs : r0.success = true := by
        cases hb : r0.success
        · exact absurd hb hcond.1
        · rfl
      split at h
      · split at h
        · cases h
        · cases h
          exact ⟨hs, hcond.2⟩
      · cases h
        exact ⟨hs, hcond.2⟩

/-- A successful exit of the retry loop carries a success=true response. -/
theorem runFree_success_flag (env : OrchestratorEnv)
    (checker : Option (String → Bool)) (rcfg : RetryConfig) :
    ∀ (fuel a : Nat) (s s' : FreeLoopState) (r : BrowserScrapingResponse),
      runFree env checker rcfg a fuel s = (s', FreeExit.success r) →
      r.success = true := by
  intro fuel
  induction fuel with
  | zero =>
    intro a s s' r h
    rw [runFree_zero] at h
    simp at h
  | succ n ih =>
    intro a s s' r h
    rcases hc : classifyAttempt checker (env.freeAttempt a) with msg | _ | r0
    · rw [runFree_succ_failed env checker rcfg a n s msg hc] at h
      exact ih (a + 1) _ s' r h
    · rw [runFree_succ_blocked env checker rcfg a n s hc] at h
      simp at h
    · rw [runFree_succ_success env checker rcfg a n s r0 hc] at h
      have hr : r0 = r := by
        have := congrArg Prod.snd h
        simpa using this
      rw [← hr]
      exact (classifyAttempt_succeeded checker (env.freeAttempt a) r0 hc).1

/-- When attempts a, ..., a+j-1 throw and attempt a+j returns a blocked
document, the loop stops right there with the blocked exit. -/
theorem runFree_blocked_run (env : OrchestratorEnv) (f : String → Bool)
    (rcfg : RetryConfig) :
    ∀ (j a fuel : Nat) (s : FreeLoopState),
      j < fuel →
      (∀ i, a ≤ i → i < a + j → ∃ e, env.freeAttempt i = Except.error e) →
      classifyAttempt (some f) (env.freeAttempt (a + j)) = AttemptOutcome.blockedDoc →
      (runFree env (some f) rcfg a fuel s).2 = FreeExit.blocked ∧
      (runFree env (some f) rcfg a fuel s).1.attemptsMade = s.attemptsMade + j + 1 ∧
      (runFree env (some f) rcfg a fuel s).1.lastError = some blockedLastError := by
  intro j
  induction j with
  | zero =>
    intro a fuel s hj hpre hblk
    obtain ⟨m, rfl⟩ : ∃ m, fuel = m + 1 := ⟨fuel - 1, by omega⟩
    have hblk0 : classifyAttempt (some f) (env.freeAttempt a) = AttemptOutcome.blockedDoc := by
      have : a + 0 = a := by omega
      rw [this] at hblk
      exact hblk
    rw [runFree_succ_blocked env (some f) rcfg a m s hblk0]
    exact ⟨rfl, rfl, rfl⟩
  | succ n ih =>
    intro a fuel s hj hpre hblk
    obtain ⟨m, rfl⟩ : ∃ m, fuel = m + 1 := ⟨fuel - 1, by omega⟩
    obtain ⟨e, he⟩ := hpre a (le_refl a) (by omega)
    have hc : classifyAttempt (some f) (env.freeAttempt a) = AttemptOutcome.failed e := by
      rw [he]
      rfl
    rw [runFree_succ_failed env (some f) rcfg a m s e hc]
    have hblk1 : classifyAttempt (some f) (env.freeAttempt (a + 1 + n))
        = AttemptOutcome.blockedDoc := by
      have : a + 1 + n = a + (n + 1) := by omega
      rw [this]
      exact hblk
    have hpre1 : ∀ i, a + 1 ≤ i → i < a + 1 + n → ∃ e, env.freeAttempt i = Except.error e := by
      intro i h1 h2
      exact hpre i (by omega) (by omega)
    obtain ⟨g1, g2, g3⟩ := ih (a + 1) m _ (by omega) hpre1 hblk1
    refine ⟨g1, ?_, g3⟩
    rw [g2]
    show s.attemptsMade + 1 + n + 1 = s.attemptsMade + (n + 1) + 1
    omega

/-- C4: for a free strategy failing with a transport error on every
invocation, executeWithFallback invokes it exactly RetryPolicy.maxAttempts
times — no more, no fewer — before moving to fallback evaluation, and under
the repository retry policy the backoff delay base*multiplier^(n-1)+jitter
slept between consecutive attempts is strictly increasing. -/
theorem alwaysFailing_retry_bound (env : OrchestratorEnv)
    (cfg : PaidServicesConfig) (st : CreditTrackerState)
    (context : ScrapingContext) (enable : Bool)
    (checker : Option (String → Bool)) (rcfg : RetryConfig)
    (hfail : ∀ i, ∃ e, env.freeAttempt i = Except.error e)
    (hjit : ∀ i, 0 ≤ env.randJitter i ∧ env.randJitter i < 1) :
    (executeWithFallback env cfg rcfg st context enable checker).attemptsMade
      = rcfg.maxAttempts ∧
    List.Chain' (· < ·)
      (executeWithFallback env cfg defaultRetryConfig st context enable
        checker).delays := by
  constructor
  · rw [(executeWithFallback_trace env cfg rcfg st context enable checker).1,
      (runFree_all_failed env checker rcfg hfail rcfg.maxAttempts 1 _).2]
    show 0 + rcfg.maxAttempts = rcfg.maxAttempts
    omega
  · rw [(executeWithFallback_trace env cfg defaultRetryConfig st context enable
        checker).2,
      runFree_all_failed_delays env checker defaultRetryConfig hfail
        defaultRetryConfig.maxAttempts 1 _]
    show List.Chain' (· < ·)
      [retryDelay defaultRetryConfig (env.randJitter 1) 1,
       retryDelay defaultRetryConfig (env.randJitter 2) 2]
    refine List.chain'_cons.mpr ⟨?_, List.chain'_singleton _⟩
    have h1 := (hjit 1).2
    have h2 := (hjit 2).1
    unfold retryDelay defaultRetryConfig
    norm_num
    nlinarith [h1, h2]

/-- Witness for the retry-bound theorem at a concrete always-failing
environment. -/
theorem alwaysFailing_retry_bound_witness :
    (executeWithFallback envAllFail repoPaidServicesConfig defaultRetryConfig
        stRich demoContext false none).attemptsMade
      = defaultRetryConfig.maxAttempts ∧
    List.Chain' (· < ·)
      (executeWithFallback envAllFail repoPaidServicesConfig defaultRetryConfig
        stRich demoContext false none).delays :=
  alwaysFailing_retry_bound envAllFail repoPaidServicesConfig stRich demoContext
    false none defaultRetryConfig
    (fun _ => ⟨"ECONNRESET", rfl⟩)
    (fun _ => ⟨by norm_num [envAllFail], by norm_num [envAllFail]⟩)

/-- C5: when attempt k of the free strategy returns a document the block
checker flags (the earlier attempts having failed), the orchestrator makes
exactly k free attempts — exiting the retry loop immediately — and proceeds
directly to the paid-fallback evaluation. -/
theorem blocked_short_circuits (env : OrchestratorEnv)
    (cfg : PaidServicesConfig) (rcfg : RetryConfig) (st : CreditTrackerState)
    (context : ScrapingContext) (f : String → Bool) (k : Nat)
    (r : BrowserScrapingResponse)
    (hk1 : 1 ≤ k) (hk2 : k ≤ rcfg.maxAttempts)
    (hpre : ∀ i, 1 ≤ i → i < k → ∃ e, env.freeAttempt i = Except.error e)
    (hret : env.freeAttempt k = Except.ok r)
    (hsucc : r.success = true) (hhtml : r.html ≠ "")
    (hblocked : f r.html = true) :
    (executeWithFallback env cfg rcfg st context true (some f)).attemptsMade = k ∧
    (executeWithFallback env cfg rcfg st context true
        (some f)).paidFallbackEvaluated = true ∧
    (executeWithFallback env cfg rcfg st context true (some f)).result =
      (executeWithPaidService env cfg st context.siteName context.url
        (some blockedLastError)).result := by
  have hblk : classifyAttempt (some f) (env.freeAttempt (1 + (k - 1)))
      = AttemptOutcome.blockedDoc := by
    have hk : 1 + (k - 1) = k := by omega
    rw [hk, hret]
    simp [classifyAttempt, hsucc, hhtml, hblocked]
  have hpre1 : ∀ i, 1 ≤ i → i < 1 + (k - 1) →
      ∃ e, env.freeAttempt i = Except.error e := by
    intro i h1 h2
    exact hpre i h1 (by omega)
  obtain ⟨g1, g2, g3⟩ := runFree_blocked_run env f rcfg (k - 1) 1 rcfg.maxAttempts
    { attemptsMade := 0, delays := [], lastError := none } (by omega) hpre1 hblk
  refine ⟨?_, ?_, ?_⟩
  · simp only [executeWithFallback, g1]
    rw [g2]
    show 0 + (k - 1) + 1 = k
    omega
  · simp only [executeWithFallback, g1]
    rfl
  · simp only [executeWithFallback, g1]
    rw [g3, if_pos trivial]

/-- Witness for the block-short-circuit theorem: blocking detected on the
first of three attempts. -/
theorem blocked_short_circuits_witness :
    (executeWithFallback envBlockedFirst repoPaidServicesConfig
        defaultRetryConfig stRich demoContext true
        (some (fun _ => true))).attemptsMade = 1 ∧
    (executeWithFallback envBlockedFirst repoPaidServicesConfig
        defaultRetryConfig stRich demoContext true
        (some (fun _ => true))).paidFallbackEvaluated = true ∧
    (executeWithFallback envBlockedFirst repoPaidServicesConfig
        defaultRetryConfig stRich demoContext true
        (some (fun _ => true))).result =
      (executeWithPaidService envBlockedFirst repoPaidServicesConfig stRich
        demoContext.siteName demoContext.url (some blockedLastError)).result :=
  blocked_short_circuits envBlockedFirst repoPaidServicesConfig
    defaultRetryConfig stRich demoContext (fun _ => true) 1 blockedResponse
    (le_refl 1) (by decide)
    (fun i h1 h2 => absurd h2 (by omega))
    rfl rfl (by decide) rfl

/-- C1 (amended): with paid fallback disabled, executeWithFallback never
throws — it returns a response value, with success=false and an error
message whenever the free path did not succeed.  (With paid fallback
enabled, budget exhaustion and paid-provider failures propagate as thrown
errors; see the counterexample.) -/
theorem noPaidFallback_never_throws (env : OrchestratorEnv)
    (cfg : PaidServicesConfig) (rcfg : RetryConfig) (st : CreditTrackerState)
    (context : ScrapingContext) (checker : Option (String → Bool)) :
    ∃ r, (executeWithFallback env cfg rcfg st context false checker).result
        = Except.ok r ∧
      (r.success = false → ∃ m, r.error = some m) := by
  simp only [executeWithFallback]
  split
  · rename_i r heq
    refine ⟨r, rfl, ?_⟩
    intro hfalse
    have htrue := runFree_success_flag env checker rcfg rcfg.maxAttempts 1
      { attemptsMade := 0, delays := [], lastError := none }
      (runFree env checker rcfg 1 rcfg.maxAttempts
        { attemptsMade := 0, delays := [], lastError := none }).1 r
      (Prod.ext rfl heq)
    rw [htrue] at hfalse
    cases hfalse
  · split
    · rename_i henable
      exact absurd henable (by simp)
    · exact ⟨_, rfl, fun _ => ⟨_, rfl⟩⟩

/-- C1 counterexample: with the repository configuration, all free attempts
throwing and the ledger one credit short of the jobs.bg cost, the public
entry point ends in a thrown error (insufficient budget) instead of
returning a FetchResult with success=false. -/
theorem executeWithFallback_throws_on_budget :
    hasAvailableCredits repoPaidServicesConfig envAllFail.now stPoor "scraperapi"
        (getCreditCost repoPaidServicesConfig "jobs.bg" "scraperapi") = false ∧
    isThrown (executeWithFallback envAllFail repoPaidServicesConfig
        defaultRetryConfig stPoor demoContext true none).result = true :=
  ⟨rfl, rfl⟩

/-- Recording a zero-credit spend leaves every usage counter unchanged. -/
theorem trackUsage_zero_credits (now : JSDate) (st : CreditTrackerState)
    (u : CreditUsage) (hz : u.credits = 0) :
    ∀ k, (trackUsage now st u).monthlyUsage k = st.monthlyUsage k := by
  intro k
  simp only [trackUsage]
  split
  · rename_i hk
    simp [hz, hk]
  · rfl

/-- Characterization of executeWithPaidService when the budget passes and
the paid call throws: the error is rethrown after a zero-credit spend. -/
theorem executeWithPaidService_thrown (env : OrchestratorEnv)
    (cfg : PaidServicesConfig) (st : CreditTrackerState) (siteName url : String)
    (lastError : Option String) (e : String)
    (hB : hasAvailableCredits cfg env.now st "scraperapi"
      (getCreditCost cfg siteName "scraperapi") = true)
    (he : env.paidResult = Except.error e) :
    executeWithPaidService env cfg st siteName url lastError =
      { result := Except.error e
        ledger := trackUsage env.now st
          { service := "scraperapi", site := siteName, credits := 0, url := url
            timestamp := env.now, successful := false }
        paidInvoked := true
        trackCalls :=
          [{ service := "scraperapi", site := siteName, credits := 0
             url := url, timestamp := env.now, successful := false }] } := by
  simp only [executeWithPaidService, hB, he]
  rw [if_neg (by decide)]

/-- Characterization of executeWithPaidService when the budget passes and
the paid call returns an unusable response: the failure is rethrown after a
zero-credit spend. -/
theorem executeWithPaidService_badResponse (env : OrchestratorEnv)
    (cfg : PaidServicesConfig) (st : CreditTrackerState) (siteName url : String)
    (lastError : Option String) (pr : PaidScrapingResponse)
    (hB : hasAvailableCredits cfg env.now st "scraperapi"
      (getCreditCost cfg siteName "scraperapi") = true)
    (hpr : env.paidResult = Except.ok pr)
    (hbad : pr.success = false ∨ pr.html = "") :
    executeWithPaidService env cfg st siteName url lastError =
      { result := Except.error
          ("ScraperAPI failed: " ++ jsOrStr pr.error "No content received")
        ledger := trackUsage env.now st
          { service := "scraperapi", site := siteName, credits := 0, url := url
            timestamp := env.now, successful := false }
        paidInvoked := true
        trackCalls :=
          [{ service := "scraperapi", site := siteName, credits := 0
             url := url, timestamp := env.now, successful := false }] } := by
  simp only [executeWithPaidService, hB, hpr]
  rw [if_neg (by decide), if_pos hbad]

/-- C2: when the remaining scraperapi credits are strictly below the
required credit cost, hasAvailableCredits returns false, no paid call is
issued, and the ledger is unchanged (hence in particular the used-credits
counter of every (service, year, month) key) after the paid-fallback
evaluation. -/
theorem insufficient_budget_no_spend (env : OrchestratorEnv)
    (cfg : PaidServicesConfig) (st : CreditTrackerState) (siteName url : String)
    (lastError : Option String)
    (h : (getServiceLimits cfg env.now st).scraperapi.remaining <
      (getCreditCost cfg siteName "scraperapi" : Int)) :
    hasAvailableCredits cfg env.now st "scraperapi"
        (getCreditCost cfg siteName "scraperapi") = false ∧
    (executeWithPaidService env cfg st siteName url lastError).paidInvoked
        = false ∧
    (executeWithPaidService env cfg st siteName url lastError).ledger = st := by
  have hA : hasAvailableCredits cfg env.now st "scraperapi"
      (getCreditCost cfg siteName "scraperapi") = false := by
    simp only [hasAvailableCredits]
    rw [if_pos trivial]
    exact decide_eq_false (not_le.mpr h)
  refine ⟨hA, ?_, ?_⟩ <;> simp only [executeWithPaidService, hA] <;> rfl

/-- Witness for the budget gate: a ledger at used = limit - 1 and a request
costing 2 credits. -/
theorem insufficient_budget_no_spend_witness :
    hasAvailableCredits cfgSiteX envAllFail.now stPoor "scraperapi"
        (getCreditCost cfgSiteX "site-x" "scraperapi") = false ∧
    (executeWithPaidService envAllFail cfgSiteX stPoor "site-x"
        "https://site-x/a" none).paidInvoked = false ∧
    (executeWithPaidService envAllFail cfgSiteX stPoor "site-x"
        "https://site-x/a" none).ledger = stPoor :=
  insufficient_budget_no_spend envAllFail cfgSiteX stPoor "site-x"
    "https://site-x/a" none (by decide)

/-- C3: a paid attempt that completes unsuccessfully (throws, or returns
success=false or an empty body) records a spend of exactly 0 credits, so
every usage counter is unchanged by the failed attempt. -/
theorem failed_paid_call_never_charges (env : OrchestratorEnv)
    (cfg : PaidServicesConfig) (st : CreditTrackerState) (siteName url : String)
    (lastError : Option String)
    (hB : hasAvailableCredits cfg env.now st "scraperapi"
      (getCreditCost cfg siteName "scraperapi") = true)
    (hFail : (∃ e, env.paidResult = Except.error e) ∨
      ∃ pr, env.paidResult = Except.ok pr ∧ (pr.success = false ∨ pr.html = "")) :
    (∃ u, (executeWithPaidService env cfg st siteName url lastError).trackCalls
        = [u] ∧ u.credits = 0 ∧ u.successful = false) ∧
    ∀ k, (executeWithPaidService env cfg st siteName url
        lastError).ledger.monthlyUsage k = st.monthlyUsage k := by
  rcases hFail with ⟨e, he⟩ | ⟨pr, hpr, hbad⟩
  · rw [executeWithPaidService_thrown env cfg st siteName url lastError e hB he]
    refine ⟨⟨{ service := "scraperapi", site := siteName, credits := 0
               url := url, timestamp := env.now, successful := false },
      rfl, rfl, rfl⟩, trackUsage_zero_credits env.now st _ rfl⟩
  · rw [executeWithPaidService_badResponse env cfg st siteName url lastError pr
      hB hpr hbad]
    refine ⟨⟨{ service := "scraperapi", site := siteName, credits := 0
               url := url, timestamp := env.now, successful := false },
      rfl, rfl, rfl⟩, trackUsage_zero_credits env.now st _ rfl⟩

/-- Witness for the failed-paid-call theorem: the provider reports a
failure, the ledger keeps its counters. -/
theorem failed_paid_call_never_charges_witness :
    (∃ u, (executeWithPaidService envPaidFails repoPaidServicesConfig stRich
        "jobs.bg" "https://www.jobs.bg/a" none).trackCalls
        = [u] ∧ u.credits = 0 ∧ u.successful = false) ∧
    (executeWithPaidService envPaidFails repoPaidServicesConfig stRich
        "jobs.bg" "https://www.jobs.bg/a" none).ledger.monthlyUsage
        "scraperapi_2025_5" = stRich.monthlyUsage "scraperapi_2025_5" :=
  ⟨(failed_paid_call_never_charges envPaidFails repoPaidServicesConfig stRich
      "jobs.bg" "https://www.jobs.bg/a" none (by decide)
      (Or.inr ⟨failedPaidResponse, rfl, Or.inl rfl⟩)).1,
   (failed_paid_call_never_charges envPaidFails repoPaidServicesConfig stRich
      "jobs.bg" "https://www.jobs.bg/a" none (by decide)
      (Or.inr ⟨failedPaidResponse, rfl, Or.inl rfl⟩)).2 "scraperapi_2025_5"⟩

/-- C6 counterexample: a 12-character document containing the positive
job-content markers carries no blocking indicator, yet isContentBlocked
classifies it as blocked (the minimal-content test ignores the markers),
while the claimed marker-aware rule would not. -/
theorem isContentBlocked_small_with_markers :
    hasJobContentMarkers "mdc-card job" = true ∧
    hasBlockingIndicator "mdc-card job" = false ∧
    isContentBlocked "mdc-card job" = true ∧
    isContentBlockedClaimed "mdc-card job" = false := by
  refine ⟨?_, ?_, ?_, ?_⟩ <;> decide

/-- C6 (amended): isContentBlocked returns true iff the document does not
get the large-job-page override (job-content markers AND more than 50000
characters) and either a curated blocking indicator occurs in the
lowercased document or the document is shorter than 500 characters —
regardless, in the small case, of positive content markers. -/
theorem isContentBlocked_characterization (html : String) :
    isContentBlocked html = true ↔
      (¬(hasJobContentMarkers html = true ∧ 50000 < html.length)) ∧
      ((∃ m ∈ blockingIndicators, strIncludes (jsToLower html) m = true) ∨
        html.length < 500) := by
  unfold isContentBlocked
  split
  · rename_i h
    simp only [Bool.and_eq_true, decide_eq_true_eq] at h
    constructor
    · intro hc
      exact absurd hc (by simp)
    · rintro ⟨h1, -⟩
      exact absurd h h1
  · rename_i h
    simp only [Bool.and_eq_true, decide_eq_true_eq] at h
    simp only [Bool.or_eq_true, decide_eq_true_eq]
    unfold hasBlockingIndicator
    rw [List.any_eq_true]
    constructor
    · intro hor
      exact ⟨h, hor⟩
    · rintro ⟨-, hor⟩
      exact hor

/-- C9 counterexample: on the second day of a new month, with the month
number changed since the last reset, resetMonthlyUsage leaves the counters
untouched (it requires day 1), so the first invocation after a month change
does not clear them in general. -/
theorem resetMonthlyUsage_day2_no_clear :
    (JSDate.mk 2025 4 2).month ≠ stAprilUsage.lastReset.month ∧
    (resetMonthlyUsage (JSDate.mk 2025 4 2) stAprilUsage).monthlyUsage
        "scraperapi_2025_4" = 7 := by
  refine ⟨by decide, ?_⟩
  rfl

/-- C9 (amended): resetMonthlyUsage clears the usage counters exactly when
invoked on the first day of a month whose month number differs from the
last reset; invocations on any other day of the new month leave the ledger
unchanged. -/
theorem resetMonthlyUsage_clears_on_first_of_month (now : JSDate)
    (st : CreditTrackerState) (h1 : now.date = 1)
    (h2 : now.month ≠ st.lastReset.month) :
    (∀ k, (resetMonthlyUsage now st).monthlyUsage k = 0) ∧
    (resetMonthlyUsage now st).lastReset = now := by
  unfold resetMonthlyUsage
  rw [if_pos ⟨h1, h2⟩]
  exact ⟨fun _ => rfl, rfl⟩

/-- Witness: a reset invoked on the first of the next month clears the
counter. -/
theorem resetMonthlyUsage_clears_on_first_of_month_witness :
    (resetMonthlyUsage (JSDate.mk 2025 4 1) stAprilUsage).monthlyUsage
        "scraperapi_2025_4" = 0 ∧
    (resetMonthlyUsage (JSDate.mk 2025 4 1) stAprilUsage).lastReset
        = JSDate.mk 2025 4 1 :=
  ⟨(resetMonthlyUsage_clears_on_first_of_month (JSDate.mk 2025 4 1)
      stAprilUsage rfl (by decide)).1 "scraperapi_2025_4",
   (resetMonthlyUsage_clears_on_first_of_month (JSDate.mk 2025 4 1)
      stAprilUsage rfl (by decide)).2⟩

/-- C10: for scraperapi with a positive configured monthly limit, the usage
percentage lies in [0, 100] for every ledger state — also when the recorded
usage exceeds the limit — because remaining is clamped at zero. -/
theorem usagePercentage_bounds (cfg : PaidServicesConfig) (now : JSDate)
    (st : CreditTrackerState) (L : Nat)
    (hcfg : cfg.scraperapiFreeMonthlyLimit = some L) (hL : 0 < L) :
    0 ≤ getUsagePercentage cfg now st "scraperapi" ∧
    getUsagePercentage cfg now st "scraperapi" ≤ 100 := by
  have hM : jsOrNat cfg.scraperapiFreeMonthlyLimit 1000 = L := by
    rw [hcfg]
    show (if L = 0 then 1000 else L) = L
    rw [if_neg (by omega)]
  simp only [getUsagePercentage, getServiceLimits]
  rw [if_pos trivial]
  rw [hM]
  set u : ℤ := (st.monthlyUsage (usageKey "scraperapi" now.year now.month) : ℤ)
    with hu
  have hu0 : (0 : ℤ) ≤ u := Int.natCast_nonneg _
  have hA : (0 : ℤ) < (L : ℤ) := by exact_mod_cast hL
  have hB0 : (0 : ℤ) ≤ max 0 ((L : ℤ) - u) := le_max_left _ _
  have hBL : max 0 ((L : ℤ) - u) ≤ (L : ℤ) := max_le (le_of_lt hA) (by linarith)
  have hN0 : (0 : ℤ) ≤ (L : ℤ) - max 0 ((L : ℤ) - u) := by linarith
  have hNL : (L : ℤ) - max 0 ((L : ℤ) - u) ≤ (L : ℤ) := by linarith
  constructor
  · apply mul_nonneg _ (by norm_num)
    apply div_nonneg
    · exact_mod_cast hN0
    · exact_mod_cast le_of_lt hA
  · have hdiv : ((((L : ℤ) - max 0 ((L : ℤ) - u)) : ℤ) : ℚ) / ((L : ℕ) : ℚ)
        ≤ 1 := by
      rw [div_le_one (by exact_mod_cast hA)]
      exact_mod_cast hNL
    nlinarith [hdiv]

/-- Witness for the usage-percentage bounds at a ledger far over the
limit. -/
theorem usagePercentage_bounds_witness :
    0 ≤ getUsagePercentage repoPaidServicesConfig demoDate stOver "scraperapi" ∧
    getUsagePercentage repoPaidServicesConfig demoDate stOver "scraperapi"
        ≤ 100 :=
  usagePercentage_bounds repoPaidServicesConfig demoDate stOver 1000 rfl
    (by norm_num)

/-- C8 (amended): a getSession call whose deterministic fingerprint key
matches a registered session always returns that session with its
last-activity time refreshed — the code consults no idle-timeout — and
creates no new browsing context. -/
theorem getSession_reuses_matching_session (md5hex8 : String → String)
    (now : JSDate) (st : BrowserEngineState) (config : BrowserSessionConfig)
    (s : IBrowserSession)
    (h : st.sessions.lookup (generateSessionId md5hex8 config false "")
      = some s) :
    (getSession md5hex8 now st config).1 = { s with lastActivity := now } ∧
    (getSession md5hex8 now st config).2.nextContextId = st.nextContextId := by
  simp [getSession, h]

/-- Witness: the stale demo session is the registered match and is
returned refreshed. -/
theorem getSession_reuses_matching_session_witness :
    (getSession hashId demoDate staleEngineState demoSessionConfig).1
        = { staleSession with lastActivity := demoDate } ∧
    (getSession hashId demoDate staleEngineState
        demoSessionConfig).2.nextContextId = staleEngineState.nextContextId :=
  getSession_reuses_matching_session hashId demoDate staleEngineState
    demoSessionConfig staleSession rfl

/-- C8 counterexample: a session idle since 2020 is still reused in 2025 —
same underlying browsing context, none created — although the claim says a
session past an idle-timeout is not reused and a new context is created. -/
theorem getSession_ignores_idle_age :
    staleSession.lastActivity.year = 2020 ∧ demoDate.year = 2025 ∧
    (getSession hashId demoDate staleEngineState demoSessionConfig).1.contextId
        = staleSession.contextId ∧
    (getSession hashId demoDate staleEngineState
        demoSessionConfig).2.nextContextId = staleEngineState.nextContextId :=
  ⟨rfl, rfl, rfl, rfl⟩

/-- C7 (amended): two acquires with identical site+config return the same
session id (unconditionally — the pool applies no idle window); rotate
closes the session and registers its replacement under a freshly
disambiguated key, but the next acquire with the same configuration
recomputes the deterministic key, so it returns a session whose id equals
the pre-rotation id — on a fresh underlying browsing context — rather than
a different id. -/
theorem acquire_rotate_acquire_same_id (md5hex8 : String → String)
    (entropy : String) (n0 n1 n2 n3 : JSDate)
    (config : BrowserSessionConfig) :
    (getSession md5hex8 n1
        (getSession md5hex8 n0 emptyEngineState config).2 config).1.id
      = (getSession md5hex8 n0 emptyEngineState config).1.id ∧
    ∃ s2 st2,
      rotateSession md5hex8 entropy n2
          (getSession md5hex8 n0 emptyEngineState config).2
          (getSession md5hex8 n0 emptyEngineState config).1.id
        = Except.ok (s2, st2) ∧
      (getSession md5hex8 n3 st2 config).1.id
        = (getSession md5hex8 n0 emptyEngineState config).1.id ∧
      (getSession md5hex8 n3 st2 config).1.contextId
        ≠ (getSession md5hex8 n0 emptyEngineState config).1.contextId := by
  set det := generateSessionId md5hex8 config false "" with hdet
  have h0 : getSession md5hex8 n0 emptyEngineState config =
      ({ id := det, config := config, createdAt := n0, lastActivity := n0
         requestCount := 0, contextId := 0 },
       { sessions := [(det,
           { id := det, config := config, createdAt := n0, lastActivity := n0
             requestCount := 0, contextId := 0 })]
         nextContextId := 1 }) := by
    simp [getSession, createNewSession, emptyEngineState, sessionsSet, jsOrStr]
  rw [h0]
  constructor
  · simp [getSession, List.lookup]
  · have hrot : rotateSession md5hex8 entropy n2
        { sessions := [(det,
            { id := det, config := config, createdAt := n0, lastActivity := n0
              requestCount := 0, contextId := 0 })]
          nextContextId := 1 } det
        = Except.ok (createNewSession md5hex8 n2
            { sessions := [], nextContextId := 1 } config
            (some (generateSessionId md5hex8 config true entropy))) := by
      simp [rotateSession, closeSession, sessionsDelete, List.lookup]
    refine ⟨_, _, hrot, ?_, ?_⟩
    all_goals
      by_cases hcase :
        jsOrStr (some (generateSessionId md5hex8 config true entropy)) det = det
      · simp [getSession, createNewSession, sessionsSet, List.lookup, hcase]
      · have hcase2 : (det ==
            jsOrStr (some (generateSessionId md5hex8 config true entropy)) det)
            = false := beq_eq_false_iff_ne.mpr (Ne.symm hcase)
        simp only [jsOrStr] at hcase2
        simp [getSession, createNewSession, sessionsSet, List.lookup, jsOrStr,
          hcase2]

/-- C7 counterexample: with a concrete digest function and configuration,
the acquire following a rotate returns a session whose id equals the
pre-rotation id, while the claim asserts it differs. -/
theorem rotate_then_acquire_same_id_concrete :
    ∃ s2 st2,
      rotateSession hashId "1700000000000-0.5" (JSDate.mk 2025 0 2)
          (getSession hashId (JSDate.mk 2025 0 1) emptyEngineState
            demoSessionConfig).2
          (getSession hashId (JSDate.mk 2025 0 1) emptyEngineState
            demoSessionConfig).1.id
        = Except.ok (s2, st2) ∧
      (getSession hashId (JSDate.mk 2025 0 3) st2 demoSessionConfig).1.id
        = (getSession hashId (JSDate.mk 2025 0 1) emptyEngineState
            demoSessionConfig).1.id := by
  exact ⟨_, _, rfl, rfl⟩
